import Mathlib

/-!
Verification development for the Telegram message forwarder (`src/main.py`).

The Python code is shallowly embedded: each class method that the claims
touch becomes a Lean function over explicit state.  Python's `re` module is
external standard-library code; it is modelled by a `RegexOracle` parameter
giving, for each pattern string, whether `re.compile` succeeds and what
capture list `re.findall(pattern, text, re.IGNORECASE)` returns.  A concrete
oracle (`theOracle`) instantiates it for the pattern strings used in concrete
examples.  Python `float` values arising from decimal literals are modelled
exactly as rationals; `float(s)` and `int(s)` on decimal literals are
modelled by `pyFloat` / `pyInt`.
-/

set_option autoImplicit false

/-- A Python value that can sit in the `source` / `destination` config fields:
either an `int` or a `str`.  Equality of `CVal` is Python `==` on such values
(an `int` never equals a `str`). -/
inductive CVal where
  | int (n : Int)
  | str (s : String)
  deriving DecidableEq

/-- A Telegram message as the code reads it: optional body text and optional
caption (`None` is `none`; Python truthiness makes `""` falsy too). -/
structure Message where
  text : Option String
  caption : Option String
  deriving DecidableEq

/-- Python truthiness of an optional string: `None` and `""` are falsy. -/
def truthyStr : Option String → Bool
  | none => false
  | some s => s != ""

/-- `MessageFilter._get_message_text` (src/main.py lines 77-83): body text if
truthy, else caption if truthy, else the empty string. -/
def get_message_text (m : Message) : String :=
  if truthyStr m.text then m.text.getD ""
  else if truthyStr m.caption then m.caption.getD ""
  else ""

/-- Whether the char list `n` is a prefix of `h` (Python `str.startswith` on
the underlying chars). -/
def prefixOfB : List Char → List Char → Bool
  | [], _ => true
  | _ :: _, [] => false
  | a :: as, b :: bs => (a == b) && prefixOfB as bs

/-- Whether `n` occurs contiguously inside `h` (the Python `in` operator on
strings, at the char-list level).  The empty list is a substring of
everything, matching Python. -/
def substrLB (n : List Char) : List Char → Bool
  | [] => n.isEmpty
  | c :: t => prefixOfB n (c :: t) || substrLB n t

/-- Python `needle in hay` for strings. -/
def substrB (needle hay : String) : Bool :=
  substrLB needle.toList hay.toList

/-- ASCII lowercasing of one character (Python `str.lower` on the ASCII
texts used here). -/
def lowerC (c : Char) : Char :=
  if 'A' ≤ c && c ≤ 'Z' then Char.ofNat (c.toNat + 32) else c

/-- Python `str.lower` (ASCII). -/
def pyLower (s : String) : String :=
  String.mk (s.toList.map lowerC)

/-- Decidable equality for `Except`, used to evaluate embedded results on
concrete inputs. -/
instance {ε α : Type} [DecidableEq ε] [DecidableEq α] :
    DecidableEq (Except ε α)
  | Except.ok x, Except.ok y =>
      if h : x = y then Decidable.isTrue (congrArg Except.ok h)
      else Decidable.isFalse (fun hh => h (Except.ok.inj hh))
  | Except.error x, Except.error y =>
      if h : x = y then Decidable.isTrue (congrArg Except.error h)
      else Decidable.isFalse (fun hh => h (Except.error.inj hh))
  | Except.ok _, Except.error _ =>
      Decidable.isFalse (fun hh => Except.noConfusion hh)
  | Except.error _, Except.ok _ =>
      Decidable.isFalse (fun hh => Except.noConfusion hh)

/-- Decimal value of a list of digit characters. -/
def digitsVal (cs : List Char) : Nat :=
  cs.foldl (fun a c => a * 10 + (c.toNat - 48)) 0

/-- Python `str.isdigit` restricted to ASCII: nonempty and all characters are
decimal digits. -/
def pyIsdigit (s : String) : Bool :=
  !s.toList.isEmpty && s.toList.all (fun c => c.isDigit)

/-- Python `int(s)` on a decimal string literal: optional sign followed by a
nonempty run of digits; anything else raises (`none`). -/
def pyInt (s : String) : Option Int :=
  match s.toList with
  | [] => none
  | '-' :: rest =>
      if !rest.isEmpty && rest.all (fun c => c.isDigit)
      then some (-(digitsVal rest : Int)) else none
  | '+' :: rest =>
      if !rest.isEmpty && rest.all (fun c => c.isDigit)
      then some (digitsVal rest : Int) else none
  | cs =>
      if cs.all (fun c => c.isDigit)
      then some (digitsVal cs : Int) else none

/-- Split off the leading run of decimal digits. -/
def takeDigits : List Char → List Char × List Char
  | [] => ([], [])
  | c :: t =>
      if c.isDigit then
        let p := takeDigits t
        (c :: p.1, p.2)
      else ([], c :: t)

/-- Unsigned decimal literal `digits[.digits]` (also `.digits` and `digits.`,
as Python accepts), as an exact rational; `none` when the characters are not
such a literal. -/
def parseUnsignedDec (cs : List Char) : Option ℚ :=
  let p := takeDigits cs
  match p.2 with
  | [] => if p.1.isEmpty then none else some (digitsVal p.1 : ℚ)
  | '.' :: r2 =>
      let q := takeDigits r2
      if q.2.isEmpty && !(p.1.isEmpty && q.1.isEmpty) then
        some ((digitsVal p.1 : ℚ) + (digitsVal q.1 : ℚ) / (10 ^ q.1.length))
      else none
  | _ => none

/-- Python `float(s)` on the plain decimal literals produced by the number
regexes (no exponent / inf / nan forms, which cannot arise from the patterns
in this configuration); the value is modelled exactly as a rational. -/
def pyFloat (s : String) : Option ℚ :=
  match s.toList with
  | '-' :: rest => (parseUnsignedDec rest).map (fun q => -q)
  | '+' :: rest => parseUnsignedDec rest
  | cs => parseUnsignedDec cs

/-- Model of Python's `re` module (external standard library): for a pattern
string, whether `re.compile` succeeds, and the capture list (caps) returned by
`re.findall(pattern, text, re.IGNORECASE)` on a given text. -/
structure RegexOracle where
  compileOk : String → Bool
  caps : String → String → List String

/-- The raw JSON route-mapping object (one element of the config's
`mappings` list).  `source` and `destination` are required by the code
(`TelegramAccount.__init__` indexes them); every other field is optional and
read with `dict.get` defaults.  The Python keys `prefix` / `suffix` are the
fields `pref` / `suf` here. -/
structure MappingJson where
  source : CVal
  destination : CVal
  enabled : Option Bool
  keyword_filtering_enabled : Option Bool
  keywords_include : Option (List String)
  keywords_exclude : Option (List String)
  number_threshold_enabled : Option Bool
  number_threshold_min : Option ℚ
  number_threshold_max : Option ℚ
  number_regex_patterns : Option (List String)
  modification_enabled : Option Bool
  prefix_enabled : Option Bool
  suffix_enabled : Option Bool
  pref : Option String
  suf : Option String
  deriving DecidableEq

/-- The default entry of `number_regex_patterns`
(src/main.py lines 70-72). -/
def spendPat : String := "spend\\s+(\\d+(?:\\.\\d+)?)"

/-- The state of a constructed `MessageFilter` object
(src/main.py lines 63-75).  `number_threshold_max` is `none` when the config
omitted it, standing for the default `float('inf')` sentinel. -/
structure MessageFilter where
  keyword_filtering_enabled : Bool
  keywords_include : List String
  keywords_exclude : List String
  number_threshold_enabled : Bool
  number_threshold_min : ℚ
  number_threshold_max : Option ℚ
  number_regex_patterns : List String
  deriving DecidableEq

/-- `MessageFilter.__init__` (src/main.py lines 63-75): read each setting
with its `dict.get` default, then compile every pattern; a pattern that does
not compile raises `re.error` out of the constructor (`Except.error`). -/
def MessageFilter.init (o : RegexOracle) (m : MappingJson) :
    Except Unit MessageFilter :=
  let pats := m.number_regex_patterns.getD [spendPat]
  if pats.all o.compileOk then
    Except.ok
      { keyword_filtering_enabled := m.keyword_filtering_enabled.getD false
      , keywords_include := m.keywords_include.getD []
      , keywords_exclude := m.keywords_exclude.getD []
      , number_threshold_enabled := m.number_threshold_enabled.getD false
      , number_threshold_min := m.number_threshold_min.getD 0
      , number_threshold_max := m.number_threshold_max
      , number_regex_patterns := pats }
  else Except.error ()

/-- `MessageFilter._check_keywords` (src/main.py lines 85-99): lowercase the
text; if the exclusion list is nonempty and any exclusion keyword occurs
(case-insensitively) reject; else if the inclusion list is nonempty and no
inclusion keyword occurs reject; else accept. -/
def check_keywords (f : MessageFilter) (text : String) : Bool :=
  let tl := pyLower text
  if !f.keywords_exclude.isEmpty &&
      f.keywords_exclude.any (fun k => substrB (pyLower k) tl) then false
  else if !f.keywords_include.isEmpty &&
      !(f.keywords_include.any (fun k => substrB (pyLower k) tl)) then false
  else true

/-- Lowercase the text and remove every literal asterisk, as
`_extract_numbers` does before matching (src/main.py lines 104, 111). -/
def cleanText (text : String) : String :=
  String.mk ((pyLower text).toList.filter (fun c => c != '*'))

/-- The `numbers.extend(float(num) for num in matches if num)` step inside
its `try` (src/main.py lines 116-119): empty captures are filtered out;
captures are converted left to right and appended as they are produced; the
first capture on which `float` raises aborts the generator, so the captures
already appended stay and the rest of this pattern's captures are dropped. -/
def extendFloats (acc : List ℚ) : List String → List ℚ
  | [] => acc
  | m :: rest =>
      if m == "" then extendFloats acc rest
      else
        match pyFloat m with
        | some q => extendFloats (acc ++ [q]) rest
        | none => acc

/-- The pattern loop of `_extract_numbers` (src/main.py lines 106-119):
`re.findall` is called outside the `try`, so a pattern that fails to compile
raises out of the loop; conversion failures are caught and the loop
continues with the next pattern. -/
def extractGo (o : RegexOracle) (cleaned : String) (acc : List ℚ) :
    List String → Except Unit (List ℚ)
  | [] => Except.ok acc
  | p :: rest =>
      if o.compileOk p then
        extractGo o cleaned (extendFloats acc (o.caps p cleaned)) rest
      else Except.error ()

/-- `MessageFilter._extract_numbers` (src/main.py lines 101-122). -/
def extract_numbers (o : RegexOracle) (pats : List String) (text : String) :
    Except Unit (List ℚ) :=
  extractGo o (cleanText text) [] pats

/-- Python `num <= self.number_threshold_max` where the max may be the
`float('inf')` default (`none`). -/
def leMaxB (n : ℚ) : Option ℚ → Bool
  | none => true
  | some m => decide (n ≤ m)

/-- Whether `num` lies in the inclusive configured threshold range. -/
def inRangeB (f : MessageFilter) (n : ℚ) : Bool :=
  decide (f.number_threshold_min ≤ n) && leMaxB n f.number_threshold_max

/-- `MessageFilter.should_forward` (src/main.py lines 124-157): keyword stage
(only when `keyword_filtering_enabled`), then the numeric-threshold stage
(only when `number_threshold_enabled`); an exception escaping
`_extract_numbers` propagates (`Except.error`). -/
def should_forward (o : RegexOracle) (f : MessageFilter) (msg : Message) :
    Except Unit Bool :=
  let text := get_message_text msg
  if f.keyword_filtering_enabled && !(check_keywords f text) then
    Except.ok false
  else if f.number_threshold_enabled then
    match extract_numbers o f.number_regex_patterns text with
    | Except.error e => Except.error e
    | Except.ok numbers =>
        if numbers.isEmpty then Except.ok false
        else if numbers.any (inRangeB f) then Except.ok true
        else Except.ok false
  else Except.ok true

/-- The state of a constructed `MessageModifier` (src/main.py lines
163-168); the Python attributes `prefix` / `suffix` are `pref` / `suf`. -/
structure MessageModifier where
  enabled : Bool
  prefix_enabled : Bool
  suffix_enabled : Bool
  pref : String
  suf : String
  deriving DecidableEq

/-- `MessageModifier.__init__` (src/main.py lines 163-168). -/
def MessageModifier.init (m : MappingJson) : MessageModifier :=
  { enabled := m.modification_enabled.getD false
  , prefix_enabled := m.prefix_enabled.getD false
  , suffix_enabled := m.suffix_enabled.getD false
  , pref := m.pref.getD ""
  , suf := m.suf.getD "" }

/-- `MessageModifier.modify_message` (src/main.py lines 170-182): identity
unless enabled; else prepend `prefix + "\n"` when the prefix is enabled and
truthy, then append `"\n" + suffix` when the suffix is enabled and truthy. -/
def modify_message (mm : MessageModifier) (t : String) : String :=
  if !mm.enabled then t
  else
    let t1 := if mm.prefix_enabled && mm.pref != "" then
                mm.pref ++ "\n" ++ t else t
    if mm.suffix_enabled && mm.suf != "" then t1 ++ "\n" ++ mm.suf else t1

/-- The in-memory per-route state held by `TelegramAccount`: the mapping
dict (with `source` / `destination` possibly normalized to integers) and the
`MessageFilter` object stored under the dict's `filter` key
(src/main.py lines 198-209). -/
structure RouteState where
  mapping : MappingJson
  filter : MessageFilter
  deriving DecidableEq

/-- The `source` / `destination` normalization of `TelegramAccount.__init__`
(src/main.py lines 203-207): a plain digit string becomes the positive
integer; every other value is left unchanged. -/
def normalizeCV (v : CVal) : CVal :=
  match v with
  | CVal.str s => if pyIsdigit s then CVal.int (digitsVal s.toList) else CVal.str s
  | CVal.int n => CVal.int n

/-- One iteration of the mapping loop in `TelegramAccount.__init__`
(src/main.py lines 199-209): build the `MessageFilter` from the raw mapping
(a compile failure raises out of the constructor), then normalize the
`source` and `destination` fields of the stored copy. -/
def initRoute (o : RegexOracle) (m : MappingJson) : Except Unit RouteState :=
  match MessageFilter.init o m with
  | Except.error e => Except.error e
  | Except.ok f =>
      Except.ok
        { mapping := { m with source := normalizeCV m.source
                            , destination := normalizeCV m.destination }
        , filter := f }

/-- Python `dict.update` on one optional field: a key present in the fresh
dict overwrites, an absent key keeps the old value. -/
def updField {α : Type} (new old : Option α) : Option α :=
  match new with
  | some v => some v
  | none => old

/-- `mapping.update(new_mapping)` (src/main.py line 239) for the fields of a
route mapping: `source` and `destination` are always present in the fresh
mapping and overwrite; each optional field overwrites only if present. -/
def updMapping (old nm : MappingJson) : MappingJson :=
  { source := nm.source
  , destination := nm.destination
  , enabled := updField nm.enabled old.enabled
  , keyword_filtering_enabled :=
      updField nm.keyword_filtering_enabled old.keyword_filtering_enabled
  , keywords_include := updField nm.keywords_include old.keywords_include
  , keywords_exclude := updField nm.keywords_exclude old.keywords_exclude
  , number_threshold_enabled :=
      updField nm.number_threshold_enabled old.number_threshold_enabled
  , number_threshold_min :=
      updField nm.number_threshold_min old.number_threshold_min
  , number_threshold_max :=
      updField nm.number_threshold_max old.number_threshold_max
  , number_regex_patterns :=
      updField nm.number_regex_patterns old.number_regex_patterns
  , modification_enabled :=
      updField nm.modification_enabled old.modification_enabled
  , prefix_enabled := updField nm.prefix_enabled old.prefix_enabled
  , suffix_enabled := updField nm.suffix_enabled old.suffix_enabled
  , pref := updField nm.pref old.pref
  , suf := updField nm.suf old.suf }

/-- The matching loop of the per-message reload (src/main.py lines 235-237):
first fresh mapping whose `source` and `destination` are `==`-equal (as
Python values) to the in-memory route's stored pair. -/
def findMatch (src dst : CVal) : List MappingJson → Option MappingJson
  | [] => none
  | nm :: rest =>
      if nm.source = src ∧ nm.destination = dst then some nm
      else findMatch src dst rest

/-- The config-reload step at the top of `TelegramAccount.handle_message`
(src/main.py lines 229-245).  `rd` is the outcome of reading and parsing
`config.json`: `none` when the read raises (I/O error, malformed JSON), in
which case the inner `except` keeps the existing mapping.  When a fresh
mapping matches, `mapping.update(new_mapping)` runs first; if building the
new `MessageFilter` then raises (bad pattern in the fresh config), the
`except` catches it, leaving the updated settings with the old filter. -/
def reload_step (o : RegexOracle) (rd : Option (List MappingJson))
    (rs : RouteState) : RouteState :=
  match rd with
  | none => rs
  | some nms =>
      match findMatch rs.mapping.source rs.mapping.destination nms with
      | none => rs
      | some nm =>
          let m2 := updMapping rs.mapping nm
          match MessageFilter.init o nm with
          | Except.ok f => { mapping := m2, filter := f }
          | Except.error _ => { mapping := m2, filter := rs.filter }

/-- A send target as handed to the chat client: either a chat identifier
value (integer or unresolved string) or a `PeerChannel` wrapper. -/
inductive SendTarget where
  | chat (c : CVal)
  | peer (channelId : Int)
  deriving DecidableEq

/-- Model of the external chat client's `send_message`: whether a send to a
given target succeeds. -/
structure SendOracle where
  sendOk : SendTarget → Bool

/-- The destination normalization at the top of
`TelegramAccount.forward_message` (src/main.py lines 305-313): strings
starting with `-100` are parsed directly, other `-`-strings get `-100`
prepended to their digits, plain digit strings are parsed as positive, and
anything else (integers, non-numeric strings) passes through.  `none` means
`int(...)` raised, which the outer `except` of `forward_message` absorbs. -/
def normalizeDest : CVal → Option CVal
  | CVal.int n => some (CVal.int n)
  | CVal.str s =>
      if prefixOfB "-100".toList s.toList then (pyInt s).map CVal.int
      else if prefixOfB "-".toList s.toList then
        (pyInt (String.mk ('-' :: '1' :: '0' :: '0' :: s.toList.drop 1))).map CVal.int
      else if pyIsdigit s then (pyInt s).map CVal.int
      else some (CVal.str s)

/-- Python `str.replace("100", "", 1)` on a char list: remove the first
occurrence of `100`, if any. -/
def removeFirst100L : List Char → List Char
  | '1' :: '0' :: '0' :: rest => rest
  | c :: rest => c :: removeFirst100L rest
  | [] => []

/-- The retry identifier of `forward_message` (src/main.py line 323):
`int(str(abs(destination)).replace('100', '', 1))`; `none` when `int` raises
(the digit string was exactly `100`).  Only defined for integer
destinations: on a string destination `abs` raises `TypeError` first. -/
def retryChannelId (n : Int) : Option Int :=
  pyInt (String.mk (removeFirst100L (toString n.natAbs).toList))

/-- `TelegramAccount.forward_message` (src/main.py lines 300-334), returning
the list of send attempts made (in order) and the target of the successful
delivery, if any.  All exceptions are caught by the outer `try` (line 331),
so the function always returns: a `none` delivery is a terminally dropped,
logged event. -/
def forward_message (so : SendOracle) (dest0 : CVal) :
    List SendTarget × Option SendTarget :=
  match normalizeDest dest0 with
  | none => ([], none)
  | some d =>
      if so.sendOk (SendTarget.chat d) then
        ([SendTarget.chat d], some (SendTarget.chat d))
      else
        match d with
        | CVal.str _ => ([SendTarget.chat d], none)
        | CVal.int n =>
            match retryChannelId n with
            | none => ([SendTarget.chat d], none)
            | some cid =>
                if so.sendOk (SendTarget.peer cid) then
                  ([SendTarget.chat d, SendTarget.peer cid],
                   some (SendTarget.peer cid))
                else
                  ([SendTarget.chat d, SendTarget.peer cid], none)

/-- Outcome of `TelegramAccount.handle_message` for one event. -/
inductive HandleResult where
  /-- The (possibly freshly reloaded) mapping has `enabled` present and
  falsy: the event is dropped silently (src/main.py lines 250-252). -/
  | droppedDisabled
  /-- `should_forward` returned `False`: dropped and logged. -/
  | droppedFiltered
  /-- An exception escaped the pipeline (e.g. out of `should_forward`) and
  was caught by the handler's outer `except` (src/main.py lines 269-270). -/
  | droppedError
  /-- The filter accepted: `forward_message` ran with the given attempts and
  delivery outcome, delivering the original message object unmodified. -/
  | forwarded (delivered : Message) (attempts : List SendTarget)
      (sent : Option SendTarget)
  deriving DecidableEq

/-- The part of `TelegramAccount.handle_message` after the enabled check
(src/main.py lines 254-267): run the filter, then forward.  The message
object handed to `forward_message` is the original event message; no
modification is applied to it. -/
def filter_stage (o : RegexOracle) (so : SendOracle) (rs2 : RouteState)
    (msg : Message) : HandleResult :=
  match should_forward o rs2.filter msg with
  | Except.error _ => HandleResult.droppedError
  | Except.ok false => HandleResult.droppedFiltered
  | Except.ok true =>
      let r := forward_message so rs2.mapping.destination
      HandleResult.forwarded msg r.1 r.2

/-- `TelegramAccount.handle_message` (src/main.py lines 227-270): reload the
route's settings from the fresh on-disk config (`rd`), drop silently if the
mapping is disabled, else filter and forward.  Returns the updated in-memory
route state and the outcome. -/
def handle_message (o : RegexOracle) (so : SendOracle)
    (rd : Option (List MappingJson)) (rs : RouteState) (msg : Message) :
    RouteState × HandleResult :=
  let rs2 := reload_step o rd rs
  if !(rs2.mapping.enabled.getD true) then (rs2, HandleResult.droppedDisabled)
  else (rs2, filter_stage o so rs2 msg)

/-- The configuration root object, restricted to the fields the fleet logic
reads (src/main.py lines 412-436): the session identifiers and the route
mappings.  API credentials and the session directory are opaque here. -/
structure ConfigJson where
  sessions : List String
  mappings : List MappingJson
  deriving DecidableEq

/-- One `TelegramAccount` of the fleet: its session name and its route
states. -/
structure Account where
  session_name : String
  routes : List RouteState
  deriving DecidableEq

/-- The route-construction loop of `TelegramAccount.__init__`
(src/main.py lines 199-209) over all mappings: the first raising
construction aborts the whole account constructor. -/
def initRoutes (o : RegexOracle) : List MappingJson → Except Unit (List RouteState)
  | [] => Except.ok []
  | m :: rest =>
      match initRoute o m with
      | Except.error e => Except.error e
      | Except.ok r =>
          match initRoutes o rest with
          | Except.error e => Except.error e
          | Except.ok rs => Except.ok (r :: rs)

/-- `MultiAccountForwarder._setup_accounts` (src/main.py lines 432-436):
build one account per configured session name; a raising account constructor
propagates, leaving the accounts already built (`true` in the second
component records that the loop raised). -/
def setup_accounts (o : RegexOracle) (cfg : ConfigJson) :
    List String → List Account × Bool
  | [] => ([], false)
  | s :: rest =>
      match initRoutes o cfg.mappings with
      | Except.error _ => ([], true)
      | Except.ok rts =>
          let p := setup_accounts o cfg rest
          ({ session_name := s, routes := rts } :: p.1, p.2)

/-- The fleet coordinator's state: the last-loaded configuration and the
account map (src/main.py lines 412-420). -/
structure FleetState where
  config : ConfigJson
  accounts : List Account
  deriving DecidableEq

/-- `MultiAccountForwarder.reload_config` (src/main.py lines 463-493),
returning the fleet state on which the final `start()` runs.  `readCfg` is
the outcome of `_load_config` (`none` = raise); `stopFails` models
`self.stop()` raising.  A failure before the `self.config = new_config`
assignment leaves the old state in place, so the fallback `start()` in the
`except` runs with the previous configuration; a failure inside
`_setup_accounts` happens after the assignment and after
`self.accounts.clear()`, so the fallback `start()` runs with the new
configuration and only the accounts built before the raise. -/
def reload_config (o : RegexOracle) (readCfg : Option ConfigJson)
    (stopFails : Bool) (st : FleetState) : FleetState :=
  match readCfg with
  | none => st
  | some nc =>
      if stopFails then st
      else
        let p := setup_accounts o nc nc.sessions
        { config := nc, accounts := p.1 }

/-- Whitespace characters matched by the regex class `\s` (ASCII). -/
def isWsC (c : Char) : Bool :=
  c == ' ' || c == '\t' || c == '\n' || c == '\r' ||
  c == '\x0b' || c == '\x0c'

/-- The capture of `(\d+(?:\.\d+)?)` at the head of the char list: leading
digits, plus a fractional part only when a digit follows the dot.  Returns
the capture and the remaining characters. -/
def scanNumber (cs : List Char) : Option (List Char × List Char) :=
  let p := takeDigits cs
  if p.1.isEmpty then none
  else
    match p.2 with
    | '.' :: r2 =>
        let q := takeDigits r2
        if q.1.isEmpty then some (p.1, p.2)
        else some (p.1 ++ '.' :: q.1, q.2)
    | _ => some (p.1, p.2)

/-- A match of `spend\s+(\d+(?:\.\d+)?)` starting exactly here (on already
lowercased text): the literal `spend`, at least one whitespace, then the
number capture. -/
def matchSpendHere (cs : List Char) : Option (List Char × List Char) :=
  match cs with
  | 's' :: 'p' :: 'e' :: 'n' :: 'd' :: rest =>
      match rest with
      | c :: rest2 =>
          if isWsC c then scanNumber (rest2.dropWhile isWsC) else none
      | [] => none
  | _ => none

/-- Left-to-right non-overlapping scan of `re.findall` for the spend
pattern: on a match continue after it, otherwise advance one character.  The
fuel argument only bounds recursion; every step consumes at least one
character, so fuel `length + 1` is never exhausted. -/
def findSpendGo : Nat → List Char → List String
  | 0, _ => []
  | _ + 1, [] => []
  | fuel + 1, c :: t =>
      match matchSpendHere (c :: t) with
      | some (num, rest) => String.mk num :: findSpendGo fuel rest
      | none => findSpendGo fuel t

/-- `re.findall(spendPat, text, re.IGNORECASE)` on lowercased text. -/
def findSpend (s : String) : List String :=
  findSpendGo (s.toList.length + 1) s.toList

/-- Lowercase ASCII alphanumeric. -/
def isAlnumC (c : Char) : Bool :=
  c.isDigit || ('a' ≤ c && c ≤ 'z')

/-- Left-to-right scan of `re.findall` for `([a-z0-9]+)` on lowercased text:
maximal alphanumeric runs. -/
def findRunsGo : Nat → List Char → List String
  | 0, _ => []
  | _ + 1, [] => []
  | fuel + 1, c :: t =>
      if isAlnumC c then
        String.mk (c :: t.takeWhile isAlnumC) :: findRunsGo fuel (t.dropWhile isAlnumC)
      else findRunsGo fuel t

/-- `re.findall("([a-z0-9]+)", text, re.IGNORECASE)` on lowercased text. -/
def findRuns (s : String) : List String :=
  findRunsGo (s.toList.length + 1) s.toList

/-- The alphanumeric-run pattern used in concrete examples; on text
containing letters its captures cannot all convert to numbers. -/
def alnumPat : String := "([a-z0-9]+)"

/-- A concrete regex oracle for the pattern strings exercised by the
examples below: the default spend pattern and the alphanumeric-run pattern
compile and match as Python's `re.findall` does on the (lowercased, starred
stripped) texts used; the pattern `"("` fails to compile (unbalanced
parenthesis, `re.error`); other patterns are unused and return no
captures. -/
def theOracle : RegexOracle :=
  { compileOk := fun p => p != "("
  , caps := fun p t =>
      if p = spendPat then findSpend t
      else if p = alnumPat then findRuns t
      else [] }

/-- A chat client for the examples whose sends always succeed. -/
def sendAllOk : SendOracle := { sendOk := fun _ => true }

/-- A route mapping with required identifiers only; every optional field is
absent, exercising the `dict.get` defaults. -/
def baseMapping : MappingJson :=
  { source := CVal.int 100
  , destination := CVal.int 200
  , enabled := none
  , keyword_filtering_enabled := none
  , keywords_include := none
  , keywords_exclude := none
  , number_threshold_enabled := none
  , number_threshold_min := none
  , number_threshold_max := none
  , number_regex_patterns := none
  , modification_enabled := none
  , prefix_enabled := none
  , suffix_enabled := none
  , pref := none
  , suf := none }

/-- A plain text message `"hello"`. -/
def msgHello : Message := { text := some "hello", caption := none }

/-- A message whose body contains the excluded keyword `bad` in mixed
case. -/
def msgBad : Message := { text := some "some BAD news", caption := none }

/-- The spec's numeric-threshold example text. -/
def msgSpend : Message := { text := some "spend 50 SOL", caption := none }

/-- The numeric-threshold example with emphasis asterisks and mixed case. -/
def msgSpendStar : Message := { text := some "Spend *50* SOL", caption := none }

/-- A message whose text makes the alphanumeric-run pattern produce a
numeric capture, then a non-numeric one, before the spend pattern
matches. -/
def msgMixed : Message := { text := some "7 x spend 50 sol", caption := none }

/-- The `MessageFilter` built from `baseMapping`: every setting at its
default. -/
def fDefault : MessageFilter :=
  { keyword_filtering_enabled := false
  , keywords_include := []
  , keywords_exclude := []
  , number_threshold_enabled := false
  , number_threshold_min := 0
  , number_threshold_max := none
  , number_regex_patterns := [spendPat] }

/-- The route state built from `baseMapping`. -/
def rsBase : RouteState := { mapping := baseMapping, filter := fDefault }

/-- A mapping with exclusion keywords configured but keyword filtering left
at its default (disabled). -/
def mExcl : MappingJson := { baseMapping with keywords_exclude := some ["bad"] }

/-- The filter built from `mExcl`. -/
def fExcl : MessageFilter := { fDefault with keywords_exclude := ["bad"] }

/-- A filter with keyword filtering enabled and `bad` excluded. -/
def fExclOn : MessageFilter :=
  { fDefault with keyword_filtering_enabled := true, keywords_exclude := ["bad"] }

/-- The modifier used in the spec's transformer test. -/
def mmAB : MessageModifier :=
  { enabled := true, prefix_enabled := true, suffix_enabled := true
  , pref := "A", suf := "B" }

/-- A chat client whose direct chat sends fail while peer-addressed sends
succeed. -/
def soFallback : SendOracle :=
  { sendOk := fun t =>
      match t with
      | SendTarget.chat _ => false
      | SendTarget.peer _ => true }

/-- A route with modification fully configured: prefix `A` and suffix `B`,
modification enabled. -/
def mMod : MappingJson :=
  { baseMapping with
      modification_enabled := some true
      prefix_enabled := some true
      suffix_enabled := some true
      pref := some "A"
      suf := some "B" }

/-- The route state built from `mMod`. -/
def rsMod : RouteState := { mapping := mMod, filter := fDefault }

/-- A route whose identifiers are supplied as plain digit strings. -/
def mDigits : MappingJson :=
  { baseMapping with source := CVal.str "123", destination := CVal.str "456" }

/-- A fresh on-disk version of `mDigits` with changed filter settings. -/
def nmFresh : MappingJson := { mDigits with keywords_exclude := some ["sale"] }

/-- The in-memory route built from `mDigits`: the digit strings were
normalized to integers at account construction. -/
def rsDigits : RouteState :=
  { mapping := { mDigits with source := CVal.int 123, destination := CVal.int 456 }
  , filter := fDefault }

/-- A fresh on-disk version of `baseMapping` with changed filter
settings. -/
def nmFreshInt : MappingJson :=
  { baseMapping with keywords_exclude := some ["sale"] }

/-- The config the fleet previously held. -/
def cfgOld : ConfigJson := { sessions := ["acct1"], mappings := [baseMapping] }

/-- A route mapping whose pattern list contains the malformed pattern `(`:
constructing its filter raises `re.error`. -/
def mBadPat : MappingJson :=
  { baseMapping with
      number_threshold_enabled := some true
      number_regex_patterns := some ["(", spendPat] }

/-- A fresh config whose only mapping fails filter construction. -/
def cfgNew : ConfigJson := { sessions := ["acct1"], mappings := [mBadPat] }

/-- The fleet state before the reload. -/
def fleetOld : FleetState :=
  { config := cfgOld
  , accounts := [{ session_name := "acct1", routes := [rsBase] }] }

/-- The spec's threshold-accept route: `[10, 100]`. -/
def m4a : MappingJson :=
  { baseMapping with
      number_threshold_enabled := some true
      number_threshold_min := some 10
      number_threshold_max := some 100 }

/-- The filter built from `m4a`. -/
def f4a : MessageFilter :=
  { fDefault with
      number_threshold_enabled := true
      number_threshold_min := 10
      number_threshold_max := some 100 }

/-- The spec's threshold-reject route: `[60, 100]`. -/
def m4b : MappingJson := { m4a with number_threshold_min := some 60 }

/-- The filter built from `m4b`. -/
def f4b : MessageFilter := { f4a with number_threshold_min := 60 }

/-- A filter whose first pattern produces a numeric capture and then a
non-numeric one on `msgMixed`, followed by the spend pattern. -/
def f5 : MessageFilter :=
  { f4a with number_regex_patterns := [alnumPat, spendPat] }

/-- A filter holding the malformed pattern `(` (such an object cannot be
constructed by `MessageFilter.__init__`, which raises first; it shows that
even then `re.findall` would raise out of `should_forward`, whose `try`
covers only number conversion). -/
def fBadPat : MessageFilter :=
  { fDefault with
      number_threshold_enabled := true
      number_regex_patterns := ["(", spendPat] }

/-- C1 counterexample: on the route `mExcl`, whose text contains the
exclusion keyword `bad` (case-insensitively) but whose
`keyword_filtering_enabled` flag is absent (defaulting to false),
`should_forward` returns `True` — the exclusion list is ignored, refuting
the claim that exclusion applies regardless of the route's other
settings. -/
theorem c1_counterexample :
    MessageFilter.init theOracle mExcl = Except.ok fExcl ∧
    fExcl.keywords_exclude = ["bad"] ∧
    substrB (pyLower "bad") (pyLower (get_message_text msgBad)) = true ∧
    should_forward theOracle fExcl msgBad = Except.ok true := by
  decide

/-- C1 (amended): whenever `keyword_filtering_enabled` is true and the
message text (case-insensitively) contains some keyword of
`keywords_exclude`, `should_forward` returns `False`, regardless of the
route's remaining settings; with the flag false the exclusion list is
ignored. -/
theorem c1_exclusion_rejects (o : RegexOracle) (f : MessageFilter)
    (msg : Message) (kw : String)
    (hen : f.keyword_filtering_enabled = true)
    (hmem : kw ∈ f.keywords_exclude)
    (hsub : substrB (pyLower kw) (pyLower (get_message_text msg)) = true) :
    should_forward o f msg = Except.ok false := by
  have hne : f.keywords_exclude.isEmpty = false := by
    cases hx : f.keywords_exclude with
    | nil => rw [hx] at hmem; cases hmem
    | cons a l => rfl
  have hany : f.keywords_exclude.any
      (fun k => substrB (pyLower k) (pyLower (get_message_text msg))) = true :=
    List.any_eq_true.mpr ⟨kw, hmem, hsub⟩
  have hck : check_keywords f (get_message_text msg) = false := by
    unfold check_keywords
    simp [hne, hany]
  simp [should_forward, hen, hck]

/-- C1 witness: the amended rule at a concrete route and message. -/
theorem c1_witness : should_forward theOracle fExclOn msgBad = Except.ok false :=
  c1_exclusion_rejects theOracle fExclOn msgBad "bad" (by decide) (by decide)
    (by decide)

/-- String concatenation is associative (helper for the transformer
shape). -/
theorem strAppend_assoc (a b c : String) : (a ++ b) ++ c = a ++ (b ++ c) := by
  apply String.ext
  simp [String.data_append, List.append_assoc]

/-- Appending the empty string on the right is the identity. -/
theorem strAppend_empty (a : String) : a ++ "" = a := by
  apply String.ext
  rw [String.data_append]
  exact List.append_nil a.data

/-- Appending the empty string on the left is the identity. -/
theorem strEmpty_append (a : String) : "" ++ a = a := by
  apply String.ext
  rw [String.data_append]
  exact List.nil_append a.data

/-- C7: `modify_message` is the identity when modification is disabled;
when enabled it prepends `prefix + "\n"` iff the prefix is enabled and
nonempty and then appends `"\n" + suffix` iff the suffix is enabled and
nonempty, disabled or empty pieces contributing no separator; with prefix
`A` and suffix `B` both enabled, `modify_message "hello" = "A\nhello\nB"`. -/
theorem c7_modify :
    (∀ (mm : MessageModifier) (t : String), mm.enabled = false →
        modify_message mm t = t) ∧
    (∀ (mm : MessageModifier) (t : String), mm.enabled = true →
        modify_message mm t =
          (if mm.prefix_enabled && mm.pref != "" then mm.pref ++ "\n" else "") ++
            t ++
            (if mm.suffix_enabled && mm.suf != "" then "\n" ++ mm.suf else "")) ∧
    modify_message mmAB "hello" = "A\nhello\nB" := by
  refine ⟨fun mm t h => by simp [modify_message, h], fun mm t h => ?_, by decide⟩
  cases hp : (mm.prefix_enabled && mm.pref != "") <;>
    cases hs : (mm.suffix_enabled && mm.suf != "") <;>
      simp [modify_message, h, hp, hs, strAppend_assoc, strAppend_empty,
        strEmpty_append]

/-- C7 witness: the enabled-modifier shape at a concrete modifier and
text. -/
theorem c7_witness : modify_message mmAB "world" = "A\nworld\nB" := by
  have h := c7_modify.2.1 mmAB "world" rfl
  rw [h]
  decide

/-- Helper: a string that `isdigit` accepts cannot start with `-`. -/
theorem isdigit_not_dash {s : String} (h : pyIsdigit s = true) :
    prefixOfB "-100".toList s.toList = false ∧
    prefixOfB "-".toList s.toList = false := by
  unfold pyIsdigit at h
  cases hx : s.toList with
  | nil => rw [hx] at h; cases h
  | cons c t =>
      rw [hx] at h
      have hall := (Bool.and_eq_true _ _).mp h |>.2
      have hc : c.isDigit = true := by
        have := (List.all_eq_true.mp hall) c (List.mem_cons_self c t)
        exact this
      have hdash : ('-' == c) = false := by
        cases hbe : ('-' == c)
        · rfl
        · exfalso
          have hce : c = '-' := (beq_iff_eq.mp hbe).symm
          rw [hce] at hc
          cases hc
      constructor
      · show prefixOfB ['-', '1', '0', '0'] (c :: t) = false
        simp [prefixOfB, hdash]
      · show prefixOfB ['-'] (c :: t) = false
        simp [prefixOfB, hdash]

/-- C6: destination normalization in `forward_message`: integers pass
through; a string starting with `-100` is parsed directly; a string starting
with `-` but not `-100` is parsed after prepending `-100` to the digits
behind the sign; a plain digit string is parsed as the positive integer; and
the three concrete shapes from the spec. -/
theorem c6_normalization :
    (∀ n : Int, normalizeDest (CVal.int n) = some (CVal.int n)) ∧
    (∀ (s : String) (k : Int), prefixOfB "-100".toList s.toList = true →
      pyInt s = some k → normalizeDest (CVal.str s) = some (CVal.int k)) ∧
    (∀ (s : String) (k : Int), prefixOfB "-100".toList s.toList = false →
      prefixOfB "-".toList s.toList = true →
      pyInt (String.mk ('-' :: '1' :: '0' :: '0' :: s.toList.drop 1)) = some k →
      normalizeDest (CVal.str s) = some (CVal.int k)) ∧
    (∀ (s : String) (k : Int), pyIsdigit s = true →
      pyInt s = some k → normalizeDest (CVal.str s) = some (CVal.int k)) ∧
    normalizeDest (CVal.str "-1001234567890") = some (CVal.int (-1001234567890)) ∧
    normalizeDest (CVal.str "-1234567890") = some (CVal.int (-1001234567890)) ∧
    normalizeDest (CVal.str "1234567890") = some (CVal.int 1234567890) := by
  refine ⟨fun n => rfl, ?_, ?_, ?_, by decide, by decide, by decide⟩
  · intro s k h1 h2
    have h1x : prefixOfB ['-', '1', '0', '0'] s.data = true := by simpa using h1
    simp [normalizeDest, h1x, h2]
  · intro s k h1 h2 h3
    have h1x : prefixOfB ['-', '1', '0', '0'] s.data = false := by simpa using h1
    have h2x : prefixOfB ['-'] s.data = true := by simpa using h2
    have h3x : pyInt (String.mk ('-' :: '1' :: '0' :: '0' :: s.data.tail)) = some k := by
      simpa using h3
    simp [normalizeDest, h1x, h2x, h3x]
  · intro s k hd h2
    obtain ⟨hp1, hp2⟩ := isdigit_not_dash hd
    have hp1x : prefixOfB ['-', '1', '0', '0'] s.data = false := by simpa using hp1
    have hp2x : prefixOfB ['-'] s.data = false := by simpa using hp2
    simp [normalizeDest, hp1x, hp2x, hd, h2]

/-- C6 witness: the dash-but-not-`-100` rule at a concrete string. -/
theorem c6_witness : normalizeDest (CVal.str "-555") = some (CVal.int (-100555)) :=
  c6_normalization.2.2.1 "-555" (-100555) (by decide) (by decide) (by decide)

/-- C8: when the primary send to the normalized integer destination fails,
exactly one retry is attempted, addressed as a channel peer whose identifier
is `int(str(abs(destination)).replace('100', '', 1))`; a successful retry
delivers exactly once; if the retry fails — or the retry identifier cannot
be derived — nothing is delivered and `forward_message` still returns (all
exceptions are absorbed by its outer handler). -/
theorem c8_retry_fallback (so : SendOracle) (dest0 : CVal) (n : Int) (cid : Int) :
    (normalizeDest dest0 = some (CVal.int n) →
      so.sendOk (SendTarget.chat (CVal.int n)) = true →
      forward_message so dest0 =
        ([SendTarget.chat (CVal.int n)], some (SendTarget.chat (CVal.int n)))) ∧
    (normalizeDest dest0 = some (CVal.int n) →
      so.sendOk (SendTarget.chat (CVal.int n)) = false →
      retryChannelId n = some cid →
      forward_message so dest0 =
        ([SendTarget.chat (CVal.int n), SendTarget.peer cid],
         if so.sendOk (SendTarget.peer cid) then some (SendTarget.peer cid)
         else none)) ∧
    (normalizeDest dest0 = some (CVal.int n) →
      so.sendOk (SendTarget.chat (CVal.int n)) = false →
      retryChannelId n = none →
      forward_message so dest0 = ([SendTarget.chat (CVal.int n)], none)) ∧
    retryChannelId n =
      pyInt (String.mk (removeFirst100L (toString n.natAbs).toList)) := by
  refine ⟨?_, ?_, ?_, rfl⟩
  · intro h1 h2
    simp [forward_message, h1, h2]
  · intro h1 h2 h3
    cases hp : so.sendOk (SendTarget.peer cid) <;>
      simp [forward_message, h1, h2, h3, hp]
  · intro h1 h2 h3
    simp [forward_message, h1, h2, h3]

/-- C8 witness: with the primary send failing and the peer send succeeding,
the supergroup destination is delivered exactly once via the stripped
channel identifier. -/
theorem c8_witness :
    forward_message soFallback (CVal.str "-1001234567890") =
      ([SendTarget.chat (CVal.int (-1001234567890)),
        SendTarget.peer 1234567890],
       some (SendTarget.peer 1234567890)) := by
  have h := (c8_retry_fallback soFallback (CVal.str "-1001234567890")
    (-1001234567890) 1234567890).2.1 (by decide) (by decide) (by decide)
  simpa using h

/-- C2: on a route whose modification settings are fully enabled, the
per-event dispatch forwards the original message object: the delivered
message is `msgHello` itself, while the route's transformer applied to its
text would yield `"A\nhello\nB"` — `handle_message` never invokes
`MessageModifier.modify_message`, so the claimed Filter → Transformer →
delivery order does not hold on the delivered text. -/
theorem c2_modifier_not_applied :
    initRoute theOracle mMod = Except.ok rsMod ∧
    handle_message theOracle sendAllOk (some [mMod]) rsMod msgHello =
      (rsMod, HandleResult.forwarded msgHello [SendTarget.chat (CVal.int 200)]
        (some (SendTarget.chat (CVal.int 200)))) ∧
    modify_message (MessageModifier.init mMod) (get_message_text msgHello) =
      "A\nhello\nB" ∧
    get_message_text msgHello = "hello" ∧
    ("A\nhello\nB" : String) ≠ "hello" := by
  decide

/-- C3 counterexample: identifiers supplied as the decimal strings `"123"`
and `"456"`; the fresh config holds a mapping with the identical supplied
`(source, destination)` pair and new settings, yet the handler leaves the
in-memory settings unchanged: startup normalized the stored pair to
integers, and the reload comparison is Python `==` between the stored
integer and the fresh raw string, which never holds. -/
theorem c3_counterexample :
    initRoute theOracle mDigits = Except.ok rsDigits ∧
    nmFresh.source = mDigits.source ∧
    nmFresh.destination = mDigits.destination ∧
    (handle_message theOracle sendAllOk (some [nmFresh]) rsDigits msgHello).1 =
      rsDigits ∧
    rsDigits.mapping.keywords_exclude ≠ nmFresh.keywords_exclude := by
  decide

/-- Helper: the state component of `handle_message` is exactly the reloaded
route state. -/
theorem handle_message_fst (o : RegexOracle) (so : SendOracle)
    (rd : Option (List MappingJson)) (rs : RouteState) (msg : Message) :
    (handle_message o so rd rs msg).1 = reload_step o rd rs := by
  unfold handle_message
  by_cases h : (!(reload_step o rd rs).mapping.enabled.getD true) = true <;>
    simp [h]

/-- C3 (amended): the handler first applies the reload step: with an
unreadable config (`none`) the previous settings are kept and the handler
does not raise; with a readable config, the first fresh mapping whose
`(source, destination)` pair is `==`-equal to the stored pair replaces the
route's settings (and its filter, when the fresh filter constructs).  The
stored pair is the supplied pair with plain digit strings converted to
integers, so identifiers supplied as integers or as non-digit strings
(signed decimal strings included) compare equal to their on-disk form,
while plain digit strings do not. -/
theorem c3_reload_matching (o : RegexOracle) (so : SendOracle) (msg : Message)
    (rs : RouteState) (nms : List MappingJson) (nm : MappingJson)
    (f : MessageFilter) :
    ((handle_message o so none rs msg).1 = rs) ∧
    (findMatch rs.mapping.source rs.mapping.destination nms = some nm →
      MessageFilter.init o nm = Except.ok f →
      (handle_message o so (some nms) rs msg).1 =
        { mapping := updMapping rs.mapping nm, filter := f }) ∧
    (findMatch rs.mapping.source rs.mapping.destination nms = some nm →
      MessageFilter.init o nm = Except.error () →
      (handle_message o so (some nms) rs msg).1 =
        { mapping := updMapping rs.mapping nm, filter := rs.filter }) ∧
    (∀ n : Int, normalizeCV (CVal.int n) = CVal.int n) ∧
    (∀ s : String, pyIsdigit s = false → normalizeCV (CVal.str s) = CVal.str s) ∧
    (∀ s : String, pyIsdigit s = true →
      normalizeCV (CVal.str s) = CVal.int (digitsVal s.toList)) := by
  refine ⟨?_, ?_, ?_, fun n => rfl, ?_, ?_⟩
  · rw [handle_message_fst]; rfl
  · intro hfind hinit
    rw [handle_message_fst]
    simp [reload_step, hfind, hinit]
  · intro hfind hinit
    rw [handle_message_fst]
    simp [reload_step, hfind, hinit]
  · intro s h; simp [normalizeCV, h]
  · intro s h; simp [normalizeCV, h]

/-- C3 witness: with integer identifiers the reload step replaces the
in-memory settings with the freshly loaded values. -/
theorem c3_witness :
    (handle_message theOracle sendAllOk (some [nmFreshInt]) rsBase msgHello).1 =
      { mapping := updMapping rsBase.mapping nmFreshInt
      , filter := { fDefault with keywords_exclude := ["sale"] } } :=
  (c3_reload_matching theOracle sendAllOk msgHello rsBase [nmFreshInt] nmFreshInt
    { fDefault with keywords_exclude := ["sale"] }).2.1 (by decide) (by decide)

/-- C10: after the reload step, an absent `enabled` field is treated as
enabled — `handle_message` proceeds to the filter/forward stage, whose
outcome is never the silent disabled drop; the silent drop happens exactly
when `enabled` is present and `false`; `enabled` present and `true` also
proceeds. -/
theorem c10_enabled_default (o : RegexOracle) (so : SendOracle)
    (rd : Option (List MappingJson)) (rs : RouteState) (msg : Message) :
    ((reload_step o rd rs).mapping.enabled = none →
      handle_message o so rd rs msg =
        (reload_step o rd rs,
         filter_stage o so (reload_step o rd rs) msg)) ∧
    ((reload_step o rd rs).mapping.enabled = some true →
      handle_message o so rd rs msg =
        (reload_step o rd rs,
         filter_stage o so (reload_step o rd rs) msg)) ∧
    ((reload_step o rd rs).mapping.enabled = some false →
      handle_message o so rd rs msg =
        (reload_step o rd rs, HandleResult.droppedDisabled)) ∧
    (∀ rs2 : RouteState,
      filter_stage o so rs2 msg ≠ HandleResult.droppedDisabled) := by
  refine ⟨?_, ?_, ?_, ?_⟩
  · intro h; simp [handle_message, h]
  · intro h; simp [handle_message, h]
  · intro h; simp [handle_message, h]
  · intro rs2
    unfold filter_stage
    cases hf : should_forward o rs2.filter msg with
    | error e => simp
    | ok b => cases b <;> simp

/-- C10 witness: a route whose mapping omits `enabled` proceeds to the
filter stage. -/
theorem c10_witness :
    handle_message theOracle sendAllOk none rsBase msgHello =
      (reload_step theOracle none rsBase,
       filter_stage theOracle sendAllOk (reload_step theOracle none rsBase)
         msgHello) :=
  (c10_enabled_default theOracle sendAllOk none rsBase msgHello).1 (by decide)

/-- C9 counterexample: a reload whose rebuild fails (the fresh config's
mapping has a malformed regex, so `TelegramAccount.__init__` raises inside
`_setup_accounts`) reaches the fallback only after `self.config` was
replaced and `self.accounts` cleared: the fallback `start()` runs with the
NEW configuration and zero accounts, not with the previously held
configuration. -/
theorem c9_counterexample :
    reload_config theOracle (some cfgNew) false fleetOld =
      { config := cfgNew, accounts := [] } ∧
    cfgNew ≠ cfgOld ∧
    fleetOld.accounts ≠ ([] : List Account) := by
  decide

/-- C9 (amended): a failure while loading the new configuration, or while
stopping the sessions, leaves the previous configuration and accounts in
place, so the fallback restart uses the previously held configuration; but
a failure during rebuild happens after the configuration swap, so the
fallback restart runs with the new configuration and only the accounts
built before the failure. -/
theorem c9_reload_fallback (o : RegexOracle) (st : FleetState)
    (nc : ConfigJson) :
    (reload_config o none false st = st) ∧
    (reload_config o (some nc) true st = st) ∧
    (reload_config o (some nc) false st =
      { config := nc, accounts := (setup_accounts o nc nc.sessions).1 }) ∧
    ((setup_accounts o nc nc.sessions).2 = true →
      (reload_config o (some nc) false st).config = nc) := by
  refine ⟨rfl, rfl, rfl, fun h => rfl⟩

/-- C9 witness: a failed config read falls back to the previous state, and
the rebuild-failure fallback keeps the new config. -/
theorem c9_witness :
    reload_config theOracle none false fleetOld = fleetOld ∧
    (reload_config theOracle (some cfgNew) false fleetOld).config = cfgNew :=
  ⟨(c9_reload_fallback theOracle fleetOld cfgNew).1,
   (c9_reload_fallback theOracle fleetOld cfgNew).2.2.2 (by decide)⟩

/-- Helper: when every pattern compiles, the extraction loop never raises. -/
theorem extractGo_ok (o : RegexOracle) (t : String) (ps : List String)
    (h : ps.all o.compileOk = true) :
    ∀ acc : List ℚ, ∃ ns, extractGo o t acc ps = Except.ok ns := by
  induction ps with
  | nil => exact fun acc => ⟨acc, rfl⟩
  | cons p rest ih =>
      rw [List.all_cons] at h
      obtain ⟨h1, h2⟩ := (Bool.and_eq_true _ _).mp h
      intro acc
      obtain ⟨ns, hns⟩ := ih h2 (extendFloats acc (o.caps p t))
      exact ⟨ns, by simp [extractGo, h1, hns]⟩

/-- Helper: when every nonempty capture converts, the extend step appends
exactly the converted captures. -/
theorem extendFloats_conv (ms : List String)
    (h : ∀ m ∈ ms, m = "" ∨ (pyFloat m).isSome) :
    ∀ acc : List ℚ, extendFloats acc ms = acc ++ ms.filterMap pyFloat := by
  induction ms with
  | nil => intro acc; simp [extendFloats]
  | cons m rest ih =>
      intro acc
      have hrest := fun x hx => h x (List.mem_cons_of_mem _ hx)
      by_cases hm : m = ""
      · subst hm
        have hnone : pyFloat "" = none := rfl
        simp [extendFloats, ih hrest, hnone]
      · have hmb : (m == "") = false := by simp [hm]
        rcases h m (List.mem_cons_self m rest) with he | hs
        · exact absurd he hm
        · obtain ⟨q, hq⟩ := Option.isSome_iff_exists.mp hs
          simp [extendFloats, hmb, hq, ih hrest]

/-- Helper: when every pattern compiles and every nonempty capture
converts, the extraction loop collects all captured numbers across all
patterns, in pattern order. -/
theorem extractGo_join (o : RegexOracle) (t : String) (pats : List String)
    (hc : pats.all o.compileOk = true)
    (hconv : ∀ p ∈ pats, ∀ m ∈ o.caps p t, m = "" ∨ (pyFloat m).isSome) :
    ∀ acc : List ℚ,
      extractGo o t acc pats =
        Except.ok (acc ++ (pats.map fun p => (o.caps p t).filterMap pyFloat).flatten) := by
  induction pats with
  | nil => intro acc; simp [extractGo]
  | cons p rest ih =>
      rw [List.all_cons] at hc
      obtain ⟨h1, h2⟩ := (Bool.and_eq_true _ _).mp hc
      intro acc
      have hp := hconv p (List.mem_cons_self p rest)
      have hrest := fun x hx => hconv x (List.mem_cons_of_mem _ hx)
      rw [show extractGo o t acc (p :: rest) =
            extractGo o t (extendFloats acc (o.caps p t)) rest by
          simp [extractGo, h1]]
      rw [ih h2 hrest, extendFloats_conv _ hp]
      simp [List.append_assoc]

/-- C4: with numeric thresholding enabled (and the keyword stage passing or
disabled), `should_forward` extracts numbers from the `*`-stripped lowercased
text via all configured patterns, returns `False` on an empty collection,
and otherwise accepts iff some collected number lies in
`[number_threshold_min, number_threshold_max]` inclusive; the collection is
the concatenation of every pattern's converted captures; the absent min
defaults to `0` and the absent max to the unbounded sentinel; and on
`"spend 50 SOL"` with the default spend pattern, threshold `[10, 100]`
accepts while `[60, 100]` rejects (also through asterisk emphasis). -/
theorem c4_threshold_stage :
    (∀ (o : RegexOracle) (f : MessageFilter) (msg : Message) (ns : List ℚ),
      f.number_threshold_enabled = true →
      (f.keyword_filtering_enabled = false ∨
        check_keywords f (get_message_text msg) = true) →
      extract_numbers o f.number_regex_patterns (get_message_text msg) =
        Except.ok ns →
      (ns = [] → should_forward o f msg = Except.ok false) ∧
      (should_forward o f msg = Except.ok true ↔
        ∃ n ∈ ns, f.number_threshold_min ≤ n ∧
          leMaxB n f.number_threshold_max = true)) ∧
    (∀ (o : RegexOracle) (pats : List String) (text : String),
      pats.all o.compileOk = true →
      (∀ p ∈ pats, ∀ m ∈ o.caps p (cleanText text),
        m = "" ∨ (pyFloat m).isSome) →
      extract_numbers o pats text =
        Except.ok
          ((pats.map fun p => (o.caps p (cleanText text)).filterMap pyFloat).flatten)) ∧
    (∀ (o : RegexOracle) (m : MappingJson) (fl : MessageFilter),
      MessageFilter.init o m = Except.ok fl →
      (m.number_threshold_min = none → fl.number_threshold_min = 0) ∧
      (m.number_threshold_max = none → fl.number_threshold_max = none)) ∧
    MessageFilter.init theOracle m4a = Except.ok f4a ∧
    MessageFilter.init theOracle m4b = Except.ok f4b ∧
    extract_numbers theOracle [spendPat] (get_message_text msgSpend) =
      Except.ok [50] ∧
    should_forward theOracle f4a msgSpend = Except.ok true ∧
    should_forward theOracle f4b msgSpend = Except.ok false ∧
    should_forward theOracle f4a msgSpendStar = Except.ok true := by
  refine ⟨?_, ?_, ?_, by decide, by decide, by decide, by decide, by decide,
    by decide⟩
  · intro o f msg ns hth hkw hex
    have hcond : (f.keyword_filtering_enabled &&
        !check_keywords f (get_message_text msg)) = false := by
      rcases hkw with h | h <;> simp [h]
    have hsf : should_forward o f msg =
        (if ns.isEmpty then Except.ok false
         else if ns.any (inRangeB f) then Except.ok true
         else Except.ok false) := by
      simp [should_forward, hcond, hth, hex]
    have hiff : ns.any (inRangeB f) = true ↔
        ∃ n ∈ ns, f.number_threshold_min ≤ n ∧
          leMaxB n f.number_threshold_max = true := by
      rw [List.any_eq_true]
      constructor
      · rintro ⟨n, hn, hr⟩
        unfold inRangeB at hr
        obtain ⟨hr1, hr2⟩ := (Bool.and_eq_true _ _).mp hr
        exact ⟨n, hn, of_decide_eq_true hr1, hr2⟩
      · rintro ⟨n, hn, hr1, hr2⟩
        exact ⟨n, hn, (Bool.and_eq_true _ _).mpr ⟨decide_eq_true hr1, hr2⟩⟩
    refine ⟨fun hns => by subst hns; simp [hsf], ?_⟩
    cases ns with
    | nil => simp [hsf]
    | cons a l =>
        rw [hsf, ← hiff]
        cases hany : (a :: l).any (inRangeB f) <;> simp [hany]
  · intro o pats text hc hconv
    unfold extract_numbers
    rw [extractGo_join o (cleanText text) pats hc hconv []]
    simp
  · intro o m fl h
    simp only [MessageFilter.init] at h
    split at h
    · have h2 := Except.ok.inj h
      refine ⟨fun hmin => ?_, fun hmax => ?_⟩
      · rw [← h2]; simp [hmin]
      · rw [← h2]; simp [hmax]
    · cases h

/-- C4 witness: the threshold stage at the accepting concrete route. -/
theorem c4_witness :
    (([(50 : ℚ)] = ([] : List ℚ) →
        should_forward theOracle f4a msgSpend = Except.ok false) ∧
     (should_forward theOracle f4a msgSpend = Except.ok true ↔
       ∃ n ∈ [(50 : ℚ)], f4a.number_threshold_min ≤ n ∧
         leMaxB n f4a.number_threshold_max = true)) :=
  c4_threshold_stage.1 theOracle f4a msgSpend [50] (by decide)
    (Or.inl (by decide)) (by decide)

/-- C5 counterexample: with the malformed pattern `(` configured,
`MessageFilter.__init__` raises (`re.compile`), so the filter chain aborts
at construction rather than skipping the pattern; and `should_forward` on a
filter holding that pattern list propagates the `re.findall` error instead
of returning a boolean — the `try` in `_extract_numbers` covers only the
number conversion, not the regex evaluation. -/
theorem c5_counterexample :
    MessageFilter.init theOracle mBadPat = Except.error () ∧
    should_forward theOracle fBadPat msgSpend = Except.error () := by
  decide

/-- C5 (amended): a capture that cannot convert to a number only drops that
pattern's captures from the failing one onward — `should_forward` still
evaluates the remaining patterns and returns a boolean whenever every
configured pattern compiles; concretely, the alphanumeric pattern's `x`
capture fails conversion after its `7` was collected, the spend pattern is
still evaluated, and the filter returns a boolean. -/
theorem c5_conversion_contained :
    (∀ (o : RegexOracle) (f : MessageFilter) (msg : Message),
      f.number_regex_patterns.all o.compileOk = true →
      ∃ b, should_forward o f msg = Except.ok b) ∧
    extract_numbers theOracle [alnumPat] "7 x 9" = Except.ok [7] ∧
    extract_numbers theOracle [alnumPat, spendPat] (get_message_text msgMixed) =
      Except.ok [7, 50] ∧
    should_forward theOracle f5 msgMixed = Except.ok true := by
  refine ⟨?_, by decide, by decide, by decide⟩
  intro o f msg h
  by_cases h1 : (f.keyword_filtering_enabled &&
      !check_keywords f (get_message_text msg)) = true
  · exact ⟨false, by simp [should_forward, h1]⟩
  · have h1f : (f.keyword_filtering_enabled &&
        !check_keywords f (get_message_text msg)) = false := by
      simpa using h1
    by_cases h2 : f.number_threshold_enabled = true
    · obtain ⟨ns, hns⟩ := extractGo_ok o (cleanText (get_message_text msg))
        f.number_regex_patterns h []
      refine ⟨if ns.isEmpty then false
              else if ns.any (inRangeB f) then true else false, ?_⟩
      by_cases he : ns.isEmpty = true <;>
        by_cases ha : ns.any (inRangeB f) = true <;>
          simp [should_forward, h1f, h2, extract_numbers, hns, he, ha]
    · have h2f : f.number_threshold_enabled = false := by simpa using h2
      exact ⟨true, by simp [should_forward, h1f, h2f]⟩

/-- C5 witness: a filter whose patterns all compile yields a boolean. -/
theorem c5_witness :
    ∃ b, should_forward theOracle fDefault msgHello = Except.ok b :=
  c5_conversion_contained.1 theOracle fDefault msgHello (by decide)
